import Mathlib

/-!
Verification of the CUPS printer power controller (controller.py).

The development shallow-embeds the three classes of the source:
`Printer` (power state tracking, presence latch, pulse actuation),
`Timer` (single-slot alarm wrapper around the process alarm signal), and
`App` (the per-tick coordinator `_update` and the polling loop `run`).
Collaborator calls that can raise in Python (CUPS IPP calls, systemd
queries) are modelled by an environment record saying, for one tick,
which calls succeed and what they observe; a raised-and-caught exception
becomes an error flag on the tick result.  External effects that
actually complete (a GPIO pulse, a queue enable/disable, a log append,
a webhook notification) are recorded in an action trace in the order
the source performs them.
-/

/-- Power states of the printer, mirroring the integer enum of class
Printer in controller.py (OFF = 1, ON = 2, READY = 3).  READY records
that the USB presence probe has seen the device; it is the spec's
PRESENT state. -/
inductive PrinterState
  | OFF
  | ON
  | READY
  deriving DecidableEq, Fintype

/-- States of the single-slot timer, mirroring the integer enum of class
Timer in controller.py (FIRED = 1, SET = 2, UNSET = 3).  SET is the
spec's ARMED state. -/
inductive TimerState
  | FIRED
  | SET
  | UNSET
  deriving DecidableEq, Fintype

/-- Completed external effects of the controller, in the order the
source performs them.  A collaborator call that raises is not recorded:
its effect did not happen. -/
inductive Effect
  | pulse
  | timerArm
  | queueEnable
  | queueDisable
  | logRec
  | notifyCall
  deriving DecidableEq

/-- Printer.state() in controller.py: if usb.core.find locates the
device the stored state becomes READY, otherwise the stored state is
left as it is; the (possibly updated) stored state is returned.  The
probe issues no actuation pulse. -/
def Printer.stateQuery (present : Bool) (s : PrinterState) : PrinterState :=
  if present then PrinterState.READY else s

/-- Printer.off() in controller.py: if the tracked state is not OFF,
issue one pulse and set the state to OFF; otherwise do nothing.
Returns the new state and the number of pulses issued. -/
def Printer.off (s : PrinterState) : PrinterState × Nat :=
  if s = PrinterState.OFF then (s, 0) else (PrinterState.OFF, 1)

/-- Printer.on() in controller.py: if the tracked state is OFF, issue
one pulse and set the state to ON; otherwise do nothing.  Returns the
new state and the number of pulses issued. -/
def Printer.on (s : PrinterState) : PrinterState × Nat :=
  if s = PrinterState.OFF then (PrinterState.ON, 1) else (s, 0)

/-- One operation on the Printer object: a power-on command, a
power-off command, or a presence probe (a Printer.state() call) that
observes `present`. -/
inductive POp
  | cmdOn
  | cmdOff
  | probe (present : Bool)
  deriving DecidableEq

/-- Effect of one Printer operation on the tracked state, with the
number of actuation pulses it issues. -/
def Printer.step : POp → PrinterState → PrinterState × Nat
  | POp.cmdOn, s => Printer.on s
  | POp.cmdOff, s => Printer.off s
  | POp.probe b, s => (Printer.stateQuery b s, 0)

/-- The Timer object of controller.py: its tracked state together with
the pending process alarm, modelled as the absolute deadline of the
at-most-one outstanding signal.alarm, if any. -/
structure Timer where
  state : TimerState
  alarm : Option Nat
  deriving DecidableEq

/-- Timer.set() in controller.py: signal.alarm(timeout) replaces any
pending alarm with a single new deadline, and the state becomes SET. -/
def Timer.set (_t : Timer) (now timeout : Nat) : Timer :=
  { state := TimerState.SET, alarm := some (now + timeout) }

/-- Timer.unset() in controller.py: the pending alarm is cancelled via
signal.alarm(0) only when the tracked state is SET, and the state
becomes UNSET. -/
def Timer.unset (t : Timer) : Timer :=
  { state := TimerState.UNSET,
    alarm := if t.state = TimerState.SET then none else t.alarm }

/-- Delivery of the alarm signal: if a deadline is pending and the
clock has reached it, the handler sets the state to FIRED and the alarm
is consumed; otherwise nothing happens. -/
def Timer.expire (t : Timer) (now : Nat) : Timer :=
  match t.alarm with
  | some d => if d ≤ now then { state := TimerState.FIRED, alarm := none } else t
  | none => t

/-- Coordinator-owned mutable state: the Timer object and the tracked
printer state. -/
structure CoordState where
  timer : Timer
  printer : PrinterState
  deriving DecidableEq

/-- Environment of one tick: which collaborator calls succeed and what
they observe.  serviceActive is cups.service ActiveState == active;
jobsOk is whether getJobs returns (false: it raises); jobCount its
result; present is what usb.core.find observes; queueQueryOk and
queueDisabled model getPrinterAttributes; enableOk and disableOk say
whether enablePrinter and disablePrinter succeed. -/
structure Env where
  serviceActive : Bool
  jobsOk : Bool
  jobCount : Nat
  present : Bool
  queueQueryOk : Bool
  queueDisabled : Bool
  enableOk : Bool
  disableOk : Bool
  deriving DecidableEq

/-- App._update in controller.py, with its fallible CUPS calls made
explicit.  Returns the coordinator state at the moment the call chain
ends (normally or at a raised exception), the completed actions in
order, and whether an exception was raised.  The caller guarantees
s.printer = pst, as App.run does (pst is the value just returned by
Printer.state()). -/
def App.update (e : Env) (now timeout : Nat) (jc : Nat) (pst : PrinterState)
    (s : CoordState) : CoordState × List Effect × Bool :=
  if 0 < jc then
    if pst = PrinterState.OFF then
      ({ timer := s.timer.unset, printer := (Printer.on s.printer).1 },
       List.replicate (Printer.on s.printer).2 Effect.pulse, false)
    else if pst = PrinterState.READY then
      if e.queueQueryOk then
        if e.queueDisabled then
          if e.enableOk then
            ({ timer := s.timer.unset, printer := s.printer },
             [Effect.queueEnable], false)
          else ({ timer := s.timer.unset, printer := s.printer }, [], true)
        else ({ timer := s.timer.unset, printer := s.printer }, [], false)
      else ({ timer := s.timer.unset, printer := s.printer }, [], true)
    else ({ timer := s.timer.unset, printer := s.printer }, [], false)
  else if s.timer.state = TimerState.UNSET ∧ pst ≠ PrinterState.OFF then
    ({ timer := s.timer.set now timeout, printer := s.printer },
     [Effect.timerArm], false)
  else if s.timer.state = TimerState.FIRED then
    if e.disableOk then
      ({ timer := s.timer.unset, printer := (Printer.off s.printer).1 },
       Effect.queueDisable :: List.replicate (Printer.off s.printer).2 Effect.pulse,
       false)
    else ({ timer := s.timer.unset, printer := s.printer }, [], true)
  else (s, [], false)

/-- One iteration of the body of App.run in controller.py (after the
sleep): if cups.service is not active the tick is silently skipped;
otherwise getJobs is queried (it may raise), then Printer.state() is
refreshed, then App._update runs.  The Bool flags a raised exception
that App.run catches. -/
def App.tick (e : Env) (now timeout : Nat) (s : CoordState) :
    CoordState × List Effect × Bool :=
  if e.serviceActive then
    if e.jobsOk then
      App.update e now timeout e.jobCount (Printer.stateQuery e.present s.printer)
        { s with printer := Printer.stateQuery e.present s.printer }
    else (s, [], true)
  else (s, [], false)

/-- App.run of controller.py around one tick: a caught exception is
followed by self.log then self.notify, in that order.  App.log opens
the log file and may itself raise OSError; that exception is raised
inside the except-handler and is not caught by anything, so it escapes
the while loop — modelled as Except.error. -/
def App.tickReport (e : Env) (logOk : Bool) (now timeout : Nat) (s : CoordState) :
    Except Unit (CoordState × List Effect) :=
  if (App.tick e now timeout s).2.2 then
    if logOk then
      Except.ok ((App.tick e now timeout s).1,
        (App.tick e now timeout s).2.1 ++ [Effect.logRec, Effect.notifyCall])
    else Except.error ()
  else Except.ok ((App.tick e now timeout s).1, (App.tick e now timeout s).2.1)

/-- Startup path of controller.py: Printer.__init__ sets the tracked
state to OFF and immediately refreshes it with Printer.state(); then
App.__init__ calls Printer.state() again and, if the result is OFF,
disables the CUPS queue, all before the first poll tick. -/
def App.startup (present : Bool) : PrinterState × List Effect :=
  let p1 := Printer.stateQuery present PrinterState.OFF
  let p2 := Printer.stateQuery present p1
  if p2 = PrinterState.OFF then (p2, [Effect.queueDisable]) else (p2, [])

/-- Modelled from the spec: the decision table of spec section 4.2,
written from the spec's words for comparison with the code's
App._update.  Rule 1 (jobs pending): clear the timer; power-on with one
pulse from POWERED_OFF; enable the queue from PRESENT when it is
disabled; otherwise nothing further.  Rule 2 (no jobs, FIRED): clear
the timer, disable the queue, then command power-off (idempotent: zero
pulses when already off).  Rule 3 (no jobs, UNSET, powered): arm the
timer.  Rules 4 and 5: no action. -/
def specDecisionTable (jc : Nat) (qd : Bool) (ts : TimerState) (ps : PrinterState) :
    TimerState × PrinterState × List Effect :=
  if 0 < jc then
    if ps = PrinterState.OFF then
      (TimerState.UNSET, PrinterState.ON, [Effect.pulse])
    else if ps = PrinterState.READY ∧ qd = true then
      (TimerState.UNSET, ps, [Effect.queueEnable])
    else (TimerState.UNSET, ps, [])
  else if ts = TimerState.FIRED then
    (TimerState.UNSET, PrinterState.OFF,
     Effect.queueDisable :: if ps = PrinterState.OFF then [] else [Effect.pulse])
  else if ts = TimerState.UNSET ∧ ps ≠ PrinterState.OFF then
    (TimerState.SET, ps, [Effect.timerArm])
  else (ts, ps, [])

/-- Environment of a tick on which every collaborator call succeeds,
with queue-disabled observation qd. -/
def okEnv (qd : Bool) : Env :=
  { serviceActive := true, jobsOk := true, jobCount := 0, present := false,
    queueQueryOk := true, queueDisabled := qd, enableOk := true, disableOk := true }

/-- Outcome of one App._update call on a failure-free tick, projected
to (new timer state, new printer state, completed effects). -/
def codeOutcome (jc : Nat) (qd : Bool) (ts : TimerState) (ps : PrinterState) :
    TimerState × PrinterState × List Effect :=
  ((App.update (okEnv qd) 0 0 jc ps
      { timer := { state := ts, alarm := none }, printer := ps }).1.timer.state,
   (App.update (okEnv qd) 0 0 jc ps
      { timer := { state := ts, alarm := none }, printer := ps }).1.printer,
   (App.update (okEnv qd) 0 0 jc ps
      { timer := { state := ts, alarm := none }, printer := ps }).2.1)

lemma App.update_pos (e : Env) (now timeout : Nat) (jc : Nat) (h : 0 < jc)
    (pst : PrinterState) (s : CoordState) :
    App.update e now timeout jc pst s = App.update e now timeout 1 pst s := by
  unfold App.update
  rw [if_pos h, if_pos Nat.one_pos]

lemma codeOutcome_eq_spec (jc : Nat) (qd : Bool) (ts : TimerState) (ps : PrinterState) :
    codeOutcome jc qd ts ps = specDecisionTable jc qd ts ps := by
  rcases Nat.eq_zero_or_pos jc with h | h
  · subst h
    revert qd ts ps
    decide
  · unfold codeOutcome specDecisionTable
    rw [App.update_pos _ 0 0 jc h, if_pos h]
    revert qd ts ps
    decide

/-- Claim C1: the per-tick decision table of App._update is a total
function — for every job count, TimerState and PrinterState (together
with the queue-disabled observation the READY branch consults), one
failure-free tick yields exactly one defined outcome, it depends on the
job count only through its positivity, and it coincides with the
decision table of spec section 4.2. -/
theorem claim_C1_decision_table_total (jc : Nat) (qd : Bool)
    (ts : TimerState) (ps : PrinterState) :
    ∃! out : TimerState × PrinterState × List Effect,
      codeOutcome jc qd ts ps = out ∧ specDecisionTable jc qd ts ps = out :=
  ⟨codeOutcome jc qd ts ps, ⟨rfl, (codeOutcome_eq_spec jc qd ts ps).symm⟩,
   fun _y hy => hy.1.symm⟩

/-- Claim C3 counterexample: commanding power-off while the tracked
state is READY (the spec's PRESENT) is a transition out of PRESENT, and
it issues one actuation pulse, not zero as the claim requires. -/
theorem claim_C3_cex :
    (Printer.step POp.cmdOff PrinterState.READY).1 = PrinterState.OFF ∧
    (Printer.step POp.cmdOff PrinterState.READY).2 = 1 := by decide

/-- Claim C3 amended: a power-on command pulses exactly when the state
is OFF (the OFF to ON transition), a power-off command pulses exactly
when the state is not OFF — so ON to OFF and also READY (PRESENT) to
OFF each issue exactly one pulse — and a presence probe, the only way
into PRESENT, never pulses. -/
theorem claim_C3_pulse_per_transition :
    ∀ s : PrinterState,
      (Printer.step POp.cmdOn s).2 = (if s = PrinterState.OFF then 1 else 0) ∧
      (Printer.step POp.cmdOff s).2 = (if s = PrinterState.OFF then 0 else 1) ∧
      ∀ b : Bool, (Printer.step (POp.probe b) s).2 = 0 := by decide

/-- Claim C7: power commands are idempotent — power-on while ON and
power-off while OFF issue zero pulses and leave the state unchanged. -/
theorem claim_C7_idempotent_power :
    Printer.on PrinterState.ON = (PrinterState.ON, 0) ∧
    Printer.off PrinterState.OFF = (PrinterState.OFF, 0) := by decide

/-- Claim C9: the presence observation is latched — a state query that
does not find the device leaves the stored state unchanged; once READY
(PRESENT), any sequence of further state queries, with or without the
device detected, leaves it READY; and a power-off command resets it to
OFF. -/
theorem claim_C9_presence_latched :
    (∀ s : PrinterState, Printer.stateQuery false s = s) ∧
    (∀ bs : List Bool,
      List.foldl (fun s b => Printer.stateQuery b s) PrinterState.READY bs =
        PrinterState.READY) ∧
    (Printer.off PrinterState.READY).1 = PrinterState.OFF := by
  refine ⟨fun s => rfl, fun bs => ?_, rfl⟩
  induction bs with
  | nil => rfl
  | cons b bs ih => cases b <;> simpa [Printer.stateQuery] using ih

/-- Claim C10: at startup, after the printer state is initialized to
OFF and refreshed from the presence probe, the queue is disabled before
the first tick exactly when the refreshed state is OFF: with no device
detected the state stays OFF and the queue is disabled; with the device
detected the state is READY and the queue is left untouched. -/
theorem claim_C10_startup_disable :
    App.startup false = (PrinterState.OFF, [Effect.queueDisable]) ∧
    App.startup true = (PrinterState.READY, []) := by decide

/-- Claim C6: arming the timer twice without an intervening clear
leaves exactly one pending deadline, namely the second one, and
advancing the clock to the first deadline (the second arm having
happened strictly later) causes no expiry: the state is still SET, not
FIRED. -/
theorem claim_C6_single_deadline (t : Timer) (now1 now2 timeout : Nat)
    (h : now1 < now2) :
    ((t.set now1 timeout).set now2 timeout).alarm = some (now2 + timeout) ∧
    (((t.set now1 timeout).set now2 timeout).expire (now1 + timeout)).state =
      TimerState.SET := by
  refine ⟨rfl, ?_⟩
  have hlt : ¬ (now2 + timeout ≤ now1 + timeout) := by omega
  simp [Timer.set, Timer.expire, hlt]

/-- Witness for claim C6 at a concrete timer and clock values. -/
theorem claim_C6_single_deadline_witness :
    (((Timer.mk TimerState.UNSET none).set 0 10).set 1 10).alarm = some 11 ∧
    ((((Timer.mk TimerState.UNSET none).set 0 10).set 1 10).expire 10).state =
      TimerState.SET :=
  claim_C6_single_deadline (Timer.mk TimerState.UNSET none) 0 1 10 (by decide)

/-- Claim C4: on a tick with no jobs and the timer FIRED whose queue
disabling succeeds, the tick ends with the timer cleared, the printer
state OFF, and an effect trace that begins with the queue-disable and
puts any power-off pulse strictly after it. -/
theorem claim_C4_fired_powers_off (e : Env) (now timeout : Nat) (s : CoordState)
    (hsvc : e.serviceActive = true) (hjob : e.jobsOk = true)
    (hjc : e.jobCount = 0) (hdis : e.disableOk = true)
    (ht : s.timer.state = TimerState.FIRED) :
    (App.tick e now timeout s).2.2 = false ∧
    (App.tick e now timeout s).1.printer = PrinterState.OFF ∧
    (App.tick e now timeout s).1.timer.state = TimerState.UNSET ∧
    (App.tick e now timeout s).2.1 =
      Effect.queueDisable ::
        (if Printer.stateQuery e.present s.printer = PrinterState.OFF then []
         else [Effect.pulse]) := by
  cases hpres : e.present <;> cases hps : s.printer <;>
    simp [App.tick, App.update, hsvc, hjob, hjc, hdis, ht, hpres, hps,
          Printer.stateQuery, Printer.off, Timer.unset, List.replicate]

/-- Environment for the claim C4 witness: no jobs, every collaborator
call succeeds, device not detected. -/
def envFiredOk : Env :=
  { serviceActive := true, jobsOk := true, jobCount := 0, present := false,
    queueQueryOk := true, queueDisabled := false, enableOk := true,
    disableOk := true }

/-- Coordinator state for the claim C4 witness: timer FIRED, printer
tracked as ON. -/
def stFiredOn : CoordState :=
  { timer := { state := TimerState.FIRED, alarm := none },
    printer := PrinterState.ON }

/-- Witness for claim C4 at a concrete environment and state. -/
theorem claim_C4_fired_powers_off_witness :
    (App.tick envFiredOk 0 9 stFiredOn).2.2 = false ∧
    (App.tick envFiredOk 0 9 stFiredOn).1.printer = PrinterState.OFF ∧
    (App.tick envFiredOk 0 9 stFiredOn).1.timer.state = TimerState.UNSET ∧
    (App.tick envFiredOk 0 9 stFiredOn).2.1 =
      Effect.queueDisable ::
        (if Printer.stateQuery envFiredOk.present stFiredOn.printer = PrinterState.OFF
         then [] else [Effect.pulse]) :=
  claim_C4_fired_powers_off envFiredOk 0 9 stFiredOn rfl rfl rfl rfl rfl

lemma App.update_err (e : Env) (now timeout : Nat) (jc : Nat)
    (pst : PrinterState) (s : CoordState)
    (herr : (App.update e now timeout jc pst s).2.2 = true) :
    (App.update e now timeout jc pst s).2.1 = [] ∧
    (App.update e now timeout jc pst s).1.printer = s.printer ∧
    (App.update e now timeout jc pst s).1.timer = s.timer.unset := by
  unfold App.update at herr ⊢
  by_cases hj : 0 < jc
  · rw [if_pos hj] at herr ⊢
    by_cases hoff : pst = PrinterState.OFF
    · rw [if_pos hoff] at herr
      simp at herr
    · rw [if_neg hoff] at herr ⊢
      by_cases hrd : pst = PrinterState.READY
      · rw [if_pos hrd] at herr ⊢
        by_cases hq : e.queueQueryOk = true
        · rw [if_pos hq] at herr ⊢
          by_cases hqd : e.queueDisabled = true
          · rw [if_pos hqd] at herr ⊢
            by_cases hen : e.enableOk = true
            · rw [if_pos hen] at herr
              simp at herr
            · rw [if_neg hen]
              exact ⟨rfl, rfl, rfl⟩
          · rw [if_neg hqd] at herr
            simp at herr
        · rw [if_neg hq]
          exact ⟨rfl, rfl, rfl⟩
      · rw [if_neg hrd] at herr
        simp at herr
  · rw [if_neg hj] at herr ⊢
    by_cases ha : s.timer.state = TimerState.UNSET ∧ pst ≠ PrinterState.OFF
    · rw [if_pos ha] at herr
      simp at herr
    · rw [if_neg ha] at herr ⊢
      by_cases hf : s.timer.state = TimerState.FIRED
      · rw [if_pos hf] at herr ⊢
        by_cases hd : e.disableOk = true
        · rw [if_pos hd] at herr
          simp at herr
        · rw [if_neg hd]
          exact ⟨rfl, rfl, rfl⟩
      · rw [if_neg hf] at herr
        simp at herr

/-- Claim C2 amended: on every tick in which a collaborator call fails,
the error is caught, the effect trace of the tick is empty (in
particular no actuation pulse was issued and the printer was not
actuated: its tracked state changes at most by the presence latch to
READY); but the tick is not atomic — the timer may already have been
cleared by Timer.unset before the failing call, so the pre-tick state
is not always restored and the next tick can take a different
decision. -/
theorem claim_C2_failed_tick (e : Env) (now timeout : Nat) (s : CoordState)
    (herr : (App.tick e now timeout s).2.2 = true) :
    (App.tick e now timeout s).2.1 = [] ∧
    ((App.tick e now timeout s).1.printer = s.printer ∨
      (App.tick e now timeout s).1.printer = PrinterState.READY) ∧
    ((App.tick e now timeout s).1.timer = s.timer ∨
      (App.tick e now timeout s).1.timer = s.timer.unset) := by
  unfold App.tick at herr ⊢
  by_cases hs : e.serviceActive = true
  · rw [if_pos hs] at herr ⊢
    by_cases hj : e.jobsOk = true
    · rw [if_pos hj] at herr ⊢
      have h := App.update_err e now timeout e.jobCount
        (Printer.stateQuery e.present s.printer)
        { s with printer := Printer.stateQuery e.present s.printer } herr
      refine ⟨h.1, ?_, Or.inr ?_⟩
      · rw [h.2.1]
        by_cases hp : e.present = true
        · exact Or.inr (by simp [Printer.stateQuery, hp])
        · exact Or.inl (by simp [Printer.stateQuery, hp])
      · rw [h.2.2]
    · rw [if_neg hj]
      exact ⟨rfl, Or.inl rfl, Or.inl rfl⟩
  · rw [if_neg hs] at herr
    simp at herr

/-- Environment for the claim C2 counterexample and witness: no jobs,
service active, getJobs succeeds, but disablePrinter raises. -/
def envDisableFail : Env :=
  { serviceActive := true, jobsOk := true, jobCount := 0, present := false,
    queueQueryOk := true, queueDisabled := true, enableOk := true,
    disableOk := false }

/-- Environment of the tick after the claim C2 counterexample tick:
identical but disablePrinter now succeeds. -/
def envDisableOkRetry : Env :=
  { serviceActive := true, jobsOk := true, jobCount := 0, present := false,
    queueQueryOk := true, queueDisabled := true, enableOk := true,
    disableOk := true }

/-- Coordinator state for the claim C2 counterexample: timer FIRED,
printer tracked as ON. -/
def stFiredOnC2 : CoordState :=
  { timer := { state := TimerState.FIRED, alarm := none },
    printer := PrinterState.ON }

/-- Claim C2 counterexample: with the timer FIRED and no jobs, a tick
whose disablePrinter call raises is caught as an error, yet it leaves
the state machine different from how the tick began (the timer was
already cleared from FIRED to UNSET); and the next tick, even with all
collaborators healthy, takes a different decision — it re-arms the
timer instead of retrying the power-off. -/
theorem claim_C2_cex :
    (App.tick envDisableFail 0 9 stFiredOnC2).2.2 = true ∧
    (App.tick envDisableFail 0 9 stFiredOnC2).1 ≠ stFiredOnC2 ∧
    (App.tick envDisableOkRetry 0 9
      (App.tick envDisableFail 0 9 stFiredOnC2).1).2.1 = [Effect.timerArm] := by
  decide

/-- Witness for the amended claim C2 at a concrete failing tick. -/
theorem claim_C2_failed_tick_witness :
    (App.tick envDisableFail 0 9 stFiredOnC2).2.1 = [] ∧
    ((App.tick envDisableFail 0 9 stFiredOnC2).1.printer = stFiredOnC2.printer ∨
      (App.tick envDisableFail 0 9 stFiredOnC2).1.printer = PrinterState.READY) ∧
    ((App.tick envDisableFail 0 9 stFiredOnC2).1.timer = stFiredOnC2.timer ∨
      (App.tick envDisableFail 0 9 stFiredOnC2).1.timer = stFiredOnC2.timer.unset) :=
  claim_C2_failed_tick envDisableFail 0 9 stFiredOnC2 (by decide)

/-- Claim C5 amended: if obtaining the job count fails by a raised
exception (getJobs raises while the service is active), the tick
performs no state transition and the failure is reported — logged then
notified; but when cups.service is not active the tick is skipped
silently: no state transition and also no report to the Notifier. -/
theorem claim_C5_job_count_failure (e : Env) (now timeout : Nat) (s : CoordState) :
    (e.serviceActive = true → e.jobsOk = false →
      App.tickReport e true now timeout s =
        Except.ok (s, [Effect.logRec, Effect.notifyCall])) ∧
    (e.serviceActive = false →
      App.tickReport e true now timeout s = Except.ok (s, [])) := by
  constructor
  · intro hs hj
    simp [App.tickReport, App.tick, hs, hj]
  · intro hs
    simp [App.tickReport, App.tick, hs]

/-- Environment for the claim C5 witness: service active but getJobs
raises. -/
def envJobsRaise : Env :=
  { serviceActive := true, jobsOk := false, jobCount := 0, present := false,
    queueQueryOk := true, queueDisabled := false, enableOk := true,
    disableOk := true }

/-- Environment for the claim C5 counterexample and witness: the
print-spooling service is not running. -/
def envServiceDown : Env :=
  { serviceActive := false, jobsOk := true, jobCount := 0, present := false,
    queueQueryOk := true, queueDisabled := false, enableOk := true,
    disableOk := true }

/-- Coordinator state used in the claim C5 counterexample and witness. -/
def stArmedOn : CoordState :=
  { timer := { state := TimerState.SET, alarm := some 9 },
    printer := PrinterState.ON }

/-- Claim C5 counterexample: when the print-spooling service is not
running — a case the claim explicitly includes among the failures to
obtain job_count — the tick is skipped with an empty effect trace: no
log record and no notification, so the failure is not reported to the
Notifier as the claim requires (the state is indeed unchanged). -/
theorem claim_C5_cex :
    App.tick envServiceDown 0 9 stArmedOn = (stArmedOn, [], false) ∧
    App.tickReport envServiceDown true 0 9 stArmedOn =
      Except.ok (stArmedOn, []) := ⟨rfl, rfl⟩

/-- Witness for the amended claim C5 at concrete environments. -/
theorem claim_C5_job_count_failure_witness :
    App.tickReport envJobsRaise true 0 9 stArmedOn =
      Except.ok (stArmedOn, [Effect.logRec, Effect.notifyCall]) ∧
    App.tickReport envServiceDown true 0 9 stArmedOn =
      Except.ok (stArmedOn, []) :=
  ⟨(claim_C5_job_count_failure envJobsRaise 0 9 stArmedOn).1 rfl rfl,
   (claim_C5_job_count_failure envServiceDown 0 9 stArmedOn).2 rfl⟩

/-- Claim C8 amended: on every tick whose error is caught, the report
appends the log record and then attempts the notification, in that
order; but a failure of the logging step itself is not swallowed — the
exception is raised inside the except-handler, nothing catches it, and
it escapes the control loop (and the notification is never attempted). -/
theorem claim_C8_report_order (e : Env) (now timeout : Nat) (s : CoordState)
    (herr : (App.tick e now timeout s).2.2 = true) :
    App.tickReport e true now timeout s =
      Except.ok ((App.tick e now timeout s).1,
        (App.tick e now timeout s).2.1 ++ [Effect.logRec, Effect.notifyCall]) ∧
    App.tickReport e false now timeout s = Except.error () := by
  constructor <;> simp [App.tickReport, herr]

/-- Environment for the claim C8 counterexample and witness: a tick
that raises (disablePrinter fails on the FIRED path). -/
def envReportFail : Env :=
  { serviceActive := true, jobsOk := true, jobCount := 0, present := false,
    queueQueryOk := true, queueDisabled := true, enableOk := true,
    disableOk := false }

/-- Coordinator state for the claim C8 counterexample and witness. -/
def stFiredOnC8 : CoordState :=
  { timer := { state := TimerState.FIRED, alarm := none },
    printer := PrinterState.ON }

/-- Claim C8 counterexample: a concrete erred tick whose subsequent
logging step fails is fatal — the control loop is escaped
(Except.error) instead of the logging failure being swallowed. -/
theorem claim_C8_cex :
    (App.tick envReportFail 0 9 stFiredOnC8).2.2 = true ∧
    App.tickReport envReportFail false 0 9 stFiredOnC8 = Except.error () :=
  ⟨rfl, rfl⟩

/-- Witness for the amended claim C8 at a concrete erred tick. -/
theorem claim_C8_report_order_witness :
    App.tickReport envReportFail true 0 9 stFiredOnC8 =
      Except.ok ((App.tick envReportFail 0 9 stFiredOnC8).1,
        (App.tick envReportFail 0 9 stFiredOnC8).2.1 ++
          [Effect.logRec, Effect.notifyCall]) ∧
    App.tickReport envReportFail false 0 9 stFiredOnC8 = Except.error () :=
  claim_C8_report_order envReportFail 0 9 stFiredOnC8 (by decide)
